import Mathlib

/-!
# Ballot Leader Election: a shallow embedding of src/src/leader_election.rs

This file embeds the data model and the operations of the
ballot_leader_election module (Ballot, the heartbeat messages, and the
BallotLeaderElection state machine) as executable Lean definitions, and
proves properties about them.

Modelling conventions:

* The machine integers of the source (u32 for ballot numbers and rounds,
  u64 for pids and delays, usize for the majority count) are modelled as
  Nat.  In the source, arithmetic that overflows panics in debug builds
  and no path examined here performs wrap-around arithmetic on purpose,
  so non-wrapping Nat arithmetic models the non-aborting executions.
* Rust Vec push is list append at the end; std::mem::take on the ballot
  bag is modelled by reading the field and setting it to [].
* The two places where the source can panic are modelled with Option:
  set_initial_leader asserts that no leader is set, and new_hb_round
  divides hb_delay by initial_delay_factor when quick_timeout is set,
  which panics on a zero factor.  A panic is the value none.
* Iterator::max().unwrap_or_default() over ballots is modelled as a fold
  of the lexicographic maximum seeded with the default ballot (0, 0);
  the default is the least element of the ballot order, so the fold
  computes the same value.
-/

/-- A ballot, the totally ordered election token of the source: a ballot
number n (u32 in the source) and the pid of the process (u64). -/
structure Ballot where
  n : Nat
  pid : Nat
deriving DecidableEq, Repr

/-- The default ballot, from the derived Default instance: (0, 0). -/
def Ballot.default : Ballot := ⟨0, 0⟩

/-- The strict lexicographic order on ballots, from the derived Ord
instance of the source (field order: n, then pid). -/
def Ballot.ltb (a b : Ballot) : Bool :=
  decide (a.n < b.n) || (decide (a.n = b.n) && decide (a.pid < b.pid))

/-- Maximum of a list of ballots with the default ballot as the value of
an empty list, as max().unwrap_or_default() computes it. -/
def listMaxBallot (l : List Ballot) : Ballot :=
  l.foldl (fun a b => if Ballot.ltb a b then b else a) Ballot.default

/-- Leader event: the pid of the elected leader together with the round
(a ballot) it was elected in. -/
structure Leader where
  pid : Nat
  round : Ballot
deriving DecidableEq, Repr

/-- Heartbeat request message: carries the round number of the sender. -/
structure HeartbeatRequest where
  round : Nat
deriving DecidableEq, Repr

/-- Heartbeat reply message: the echoed round number, the ballot of the
replying replica and its majority_connected flag. -/
structure HeartbeatReply where
  round : Nat
  ballot : Ballot
  majority_connected : Bool
deriving DecidableEq, Repr

/-- The tagged union of the two BLE message kinds. -/
inductive HeartbeatMsg where
  | request : HeartbeatRequest → HeartbeatMsg
  | reply : HeartbeatReply → HeartbeatMsg
deriving DecidableEq, Repr

/-- The BLE message envelope: sender, receiver and content.  The fields
from and to of the source are Lean tokens and are rendered from_ and
to_. -/
structure BLEMessage where
  from_ : Nat
  to_ : Nat
  msg : HeartbeatMsg
deriving DecidableEq, Repr

/-- The state of one BallotLeaderElection component, with the fields of
the source struct. -/
structure BallotLeaderElection where
  pid : Nat
  peers : List Nat
  hb_round : Nat
  ballots : List (Ballot × Bool)
  current_ballot : Ballot
  majority_connected : Bool
  leader : Option Ballot
  hb_current_delay : Nat
  hb_delay : Nat
  increment_delay : Nat
  majority : Nat
  quick_timeout : Bool
  initial_delay_factor : Nat
  ticks_elapsed : Nat
  outgoing : List BLEMessage
deriving DecidableEq, Repr

namespace BallotLeaderElection

/-- Constructor BallotLeaderElection::with of the source.  Note that it
initialises majority_connected to true unconditionally and
hb_current_delay to hb_delay, and that an absent initial_delay_factor
defaults to 1. -/
def new (peers : List Nat) (pid : Nat) (hb_delay : Nat) (increment_delay : Nat)
    (quick_timeout : Bool) (initial_leader : Option Leader)
    (initial_delay_factor : Option Nat) : BallotLeaderElection :=
  let n := peers.length + 1
  let p : Option Ballot × Ballot :=
    match initial_leader with
    | some l =>
        let leader_ballot : Ballot := ⟨l.round.n, l.pid⟩
        let initial_ballot : Ballot := if l.pid = pid then leader_ballot else ⟨0, pid⟩
        (some leader_ballot, initial_ballot)
    | none => (none, ⟨0, pid⟩)
  { pid := pid
    majority := n / 2 + 1
    peers := peers
    hb_round := 0
    ballots := []
    current_ballot := p.2
    majority_connected := true
    leader := p.1
    hb_current_delay := hb_delay
    hb_delay := hb_delay
    increment_delay := increment_delay
    quick_timeout := quick_timeout
    initial_delay_factor := initial_delay_factor.getD 1
    ticks_elapsed := 0
    outgoing := [] }

/-- get_leader of the source. -/
def get_leader (s : BallotLeaderElection) : Option Leader :=
  match s.leader with
  | some b => some ⟨b.pid, b⟩
  | none => none

/-- set_initial_leader of the source.  The assert that no leader is set
is modelled by returning none (the panic) when it fails. -/
def set_initial_leader (l : Leader) (s : BallotLeaderElection) :
    Option BallotLeaderElection :=
  if s.leader.isSome then none
  else
    let leader_ballot : Ballot := ⟨l.round.n, l.pid⟩
    if l.pid = s.pid then
      some { s with leader := some leader_ballot,
                    current_ballot := leader_ballot,
                    majority_connected := true,
                    quick_timeout := false }
    else
      some { s with leader := some leader_ballot,
                    current_ballot := ⟨0, s.pid⟩,
                    majority_connected := false,
                    quick_timeout := false }

/-- The candidate ballots of a bag: the ballots whose flag is set, as the
filter_map of check_leader computes them. -/
def candidateBallots (l : List (Ballot × Bool)) : List Ballot :=
  l.filterMap (fun p => if p.2 then some p.1 else none)

/-- check_leader of the source: take the ballot bag, compute the top
candidate ballot, and apply the three decision branches.  Returns the
new state and the optional Leader event. -/
def check_leader (s : BallotLeaderElection) :
    BallotLeaderElection × Option Leader :=
  let ballots := s.ballots
  let s0 := { s with ballots := ([] : List (Ballot × Bool)) }
  let top_ballot := listMaxBallot (candidateBallots ballots)
  if Ballot.ltb top_ballot (s0.leader.getD Ballot.default) then
    ({ s0 with
        current_ballot := ⟨(s0.leader.getD Ballot.default).n + 1, s0.current_ballot.pid⟩,
        leader := none,
        majority_connected := true }, none)
  else if s0.leader ≠ some top_ballot then
    ({ s0 with
        quick_timeout := false,
        leader := some top_ballot,
        majority_connected := decide (s0.pid = top_ballot.pid) },
     some ⟨top_ballot.pid, top_ballot⟩)
  else
    (s0, none)

/-- new_hb_round of the source: recompute the effective delay, advance
the round counter and enqueue one request per peer.  The source passes
the peer as the first argument (the from field) and its own pid as the
second (the to field) of BLEMessage::with; the embedding mirrors that
argument order faithfully.  The division hb_delay / initial_delay_factor
is reached exactly when quick_timeout is set and panics on a zero
factor; the panic is the value none. -/
def new_hb_round (s : BallotLeaderElection) : Option BallotLeaderElection :=
  if s.quick_timeout = true ∧ s.initial_delay_factor = 0 then none
  else
    let d := if s.quick_timeout then s.hb_delay / s.initial_delay_factor else s.hb_delay
    let r := s.hb_round + 1
    some { s with
      hb_current_delay := d,
      hb_round := r,
      outgoing := s.outgoing ++
        s.peers.map (fun peer => ⟨peer, s.pid, HeartbeatMsg.request ⟨r⟩⟩) }

/-- hb_timeout of the source: the round close.  If the majority gate
passes, push the self ballot and evaluate the leader; otherwise clear
the bag and drop majority_connected.  Then open the new round. -/
def hb_timeout (s : BallotLeaderElection) :
    Option (BallotLeaderElection × Option Leader) :=
  let p : BallotLeaderElection × Option Leader :=
    if s.ballots.length + 1 ≥ s.majority then
      check_leader { s with ballots := s.ballots ++ [(s.current_ballot, s.majority_connected)] }
    else
      ({ s with ballots := [], majority_connected := false }, none)
  match new_hb_round p.1 with
  | none => none
  | some s2 => some (s2, p.2)

/-- tick of the source: count a tick and close the round when the count
reaches the effective delay. -/
def tick (s : BallotLeaderElection) :
    Option (BallotLeaderElection × Option Leader) :=
  let t := s.ticks_elapsed + 1
  if t ≥ s.hb_current_delay then
    hb_timeout { s with ticks_elapsed := 0 }
  else
    some ({ s with ticks_elapsed := t }, none)

/-- handle_request of the source: enqueue one reply, echoing the round
of the request and carrying the own ballot and flag, addressed from the
own pid to the asker. -/
def handle_request (from_ : Nat) (req : HeartbeatRequest) (s : BallotLeaderElection) :
    BallotLeaderElection :=
  { s with outgoing := s.outgoing ++
      [⟨s.pid, from_, HeartbeatMsg.reply ⟨req.round, s.current_ballot, s.majority_connected⟩⟩] }

/-- handle_reply of the source: a reply of the current round joins the
bag, a stale reply widens hb_delay. -/
def handle_reply (rep : HeartbeatReply) (s : BallotLeaderElection) :
    BallotLeaderElection :=
  if rep.round = s.hb_round then
    { s with ballots := s.ballots ++ [(rep.ballot, rep.majority_connected)] }
  else
    { s with hb_delay := s.hb_delay + s.increment_delay }

/-- handle of the source: dispatch on the message kind. -/
def handle (m : BLEMessage) (s : BallotLeaderElection) : BallotLeaderElection :=
  match m.msg with
  | HeartbeatMsg.request req => handle_request m.from_ req s
  | HeartbeatMsg.reply rep => handle_reply rep s

/-- The top candidate ballot a round close computes from state s after
the self push, when the majority gate passes. -/
def round_top (s : BallotLeaderElection) : Ballot :=
  listMaxBallot (candidateBallots
    (s.ballots ++ [(s.current_ballot, s.majority_connected)]))

end BallotLeaderElection

/-- One call of the public mutating interface. -/
inductive BLEOp where
  | tickOp
  | handleOp : BLEMessage → BLEOp
  | setInitialLeaderOp : Leader → BLEOp
deriving DecidableEq, Repr

/-- Whether an operation is a set_initial_leader call. -/
def isSetInit : BLEOp → Bool
  | BLEOp.setInitialLeaderOp _ => true
  | _ => false

/-- Apply one operation to a state; none is a panic of the source. -/
def applyOp (s : BallotLeaderElection) (op : BLEOp) : Option BallotLeaderElection :=
  match op with
  | BLEOp.tickOp => (BallotLeaderElection.tick s).map Prod.fst
  | BLEOp.handleOp m => some (BallotLeaderElection.handle m s)
  | BLEOp.setInitialLeaderOp l => BallotLeaderElection.set_initial_leader l s

/-- Run a sequence of operations from a state. -/
def runOps (s : BallotLeaderElection) : List BLEOp → Option BallotLeaderElection
  | [] => some s
  | op :: ops =>
    match applyOp s op with
    | none => none
    | some s2 => runOps s2 ops

/-- Whether a list of operations contains no set_initial_leader call. -/
def noInitOps (ops : List BLEOp) : Bool :=
  ops.all (fun op => !isSetInit op)

/-! ## Concrete instances used to evaluate the definitions -/

/-- A two replica instance for pid 1: delay 1 tick, no increment, no
quick timeout, no initial leader. -/
def c1init : BallotLeaderElection := BallotLeaderElection.new [2] 1 1 0 false none none

/-- Reply of round 0 with a candidate ballot (10, 2). -/
def c4m1 : BLEMessage := ⟨2, 1, HeartbeatMsg.reply ⟨0, ⟨10, 2⟩, true⟩⟩

/-- Reply of round 1 with a non candidate ballot. -/
def c4m3 : BLEMessage := ⟨2, 1, HeartbeatMsg.reply ⟨1, ⟨0, 2⟩, false⟩⟩

/-- Reply of round 3 with a candidate ballot (3, 2). -/
def c4m6 : BLEMessage := ⟨2, 1, HeartbeatMsg.reply ⟨3, ⟨3, 2⟩, true⟩⟩

/-- Reply of round 4 with a non candidate ballot. -/
def c4m8 : BLEMessage := ⟨2, 1, HeartbeatMsg.reply ⟨4, ⟨0, 2⟩, false⟩⟩

/-- Operation sequence after which the current ballot number of c1init
has climbed to 11: adopt leader (10, 2), lose it and bump to 11, miss a
round, adopt leader (3, 2). -/
def c4ops8 : List BLEOp :=
  [BLEOp.handleOp c4m1, BLEOp.tickOp, BLEOp.handleOp c4m3, BLEOp.tickOp, BLEOp.tickOp,
   BLEOp.handleOp c4m6, BLEOp.tickOp, BLEOp.handleOp c4m8]

/-- Reply of round 1 with a non candidate ballot, used to let the
majority gate pass with an empty candidate bag. -/
def c2msg : BLEMessage := ⟨2, 1, HeartbeatMsg.reply ⟨1, ⟨0, 2⟩, false⟩⟩

/-- A quick timeout instance: delay 10, factor 5. -/
def c5init : BallotLeaderElection := BallotLeaderElection.new [2] 1 10 0 true none (some 5)

/-- A state of pid 1 that knows leader (5, 2) and holds a matching
candidate reply, one tick before the round close. -/
def w2s : BallotLeaderElection :=
  { pid := 1, peers := [2], hb_round := 1, ballots := [(⟨5, 2⟩, true)],
    current_ballot := ⟨0, 1⟩, majority_connected := false, leader := some ⟨5, 2⟩,
    hb_current_delay := 1, hb_delay := 1, increment_delay := 0, majority := 2,
    quick_timeout := false, initial_delay_factor := 1, ticks_elapsed := 0, outgoing := [] }

/-- The state and event the tick on w2s produces. -/
def w2res : BallotLeaderElection × Option Leader :=
  (BallotLeaderElection.tick w2s).getD (w2s, none)

/-- An initial leader naming replica 2. -/
def w3l : Leader := ⟨2, ⟨7, 2⟩⟩

/-- A heartbeat request envelope used as a neutral handle input. -/
def w4m : BLEMessage := ⟨2, 1, HeartbeatMsg.request ⟨0⟩⟩

/-- The state the first round open of c5init produces. -/
def w5res : BallotLeaderElection :=
  (BallotLeaderElection.new_hb_round c5init).getD c5init

/-- An instance constructed with an initial leader, so leader is set. -/
def w6s : BallotLeaderElection :=
  BallotLeaderElection.new [2] 1 1 0 false (some ⟨2, ⟨3, 2⟩⟩) none

/-- A leader value for a second set_initial_leader call. -/
def w6l : Leader := ⟨2, ⟨3, 2⟩⟩

/-- An instance with initial_delay_factor 0 and quick_timeout false. -/
def w6s0 : BallotLeaderElection := BallotLeaderElection.new [2] 1 1 0 false none (some 0)

/-- A state with hb_delay 5, increment_delay 2 in round 5. -/
def w7s : BallotLeaderElection :=
  { pid := 1, peers := [2], hb_round := 5, ballots := [], current_ballot := ⟨0, 1⟩,
    majority_connected := true, leader := none, hb_current_delay := 5, hb_delay := 5,
    increment_delay := 2, majority := 2, quick_timeout := false, initial_delay_factor := 1,
    ticks_elapsed := 0, outgoing := [] }

/-- A stale reply: round 4 while w7s is in round 5. -/
def w7rep : HeartbeatReply := ⟨4, ⟨0, 2⟩, true⟩

/-- The envelope of the stale reply w7rep. -/
def w7m : BLEMessage := ⟨2, 1, HeartbeatMsg.reply w7rep⟩

/-- The state and event the first tick on c1init produces. -/
def w8res : BallotLeaderElection × Option Leader :=
  (BallotLeaderElection.tick c1init).getD (c1init, none)

/-- A heartbeat request of round 5 from replica 2. -/
def w9m : BLEMessage := ⟨2, 1, HeartbeatMsg.request ⟨5⟩⟩

/-! ## Helper lemmas -/

open BallotLeaderElection

/-- The strict ballot order is irreflexive. -/
theorem Ballot.ltb_irrefl (a : Ballot) : Ballot.ltb a a = false := by
  simp [Ballot.ltb]

/-- No ballot is below the default ballot (0, 0). -/
theorem Ballot.ltb_default_right (a : Ballot) : Ballot.ltb a Ballot.default = false := by
  simp [Ballot.ltb, Ballot.default]

/-- A successful round open adds one to the round counter, appends one
request per peer labelled with the new round, and leaves every other
field unchanged. -/
theorem new_hb_round_some (s s2 : BallotLeaderElection)
    (h : new_hb_round s = some s2) :
    s2.ballots = s.ballots ∧ s2.hb_round = s.hb_round + 1 ∧
    s2.outgoing = s.outgoing ++
      s.peers.map (fun peer => ⟨peer, s.pid, HeartbeatMsg.request ⟨s.hb_round + 1⟩⟩) ∧
    s2.current_ballot = s.current_ballot ∧ s2.leader = s.leader ∧
    s2.majority_connected = s.majority_connected ∧ s2.quick_timeout = s.quick_timeout ∧
    s2.peers = s.peers ∧ s2.pid = s.pid ∧ s2.ticks_elapsed = s.ticks_elapsed := by
  simp only [new_hb_round] at h
  split at h
  · exact absurd h (by simp)
  · injection h with h
    subst h
    simp

/-- check_leader empties the ballot bag and never touches the round
counter, the outgoing queue, the peer list, the pid, the delays, or the
majority threshold. -/
theorem check_leader_frame (s : BallotLeaderElection) :
    (check_leader s).1.ballots = [] ∧ (check_leader s).1.hb_round = s.hb_round ∧
    (check_leader s).1.outgoing = s.outgoing ∧ (check_leader s).1.peers = s.peers ∧
    (check_leader s).1.pid = s.pid ∧ (check_leader s).1.hb_delay = s.hb_delay ∧
    (check_leader s).1.initial_delay_factor = s.initial_delay_factor ∧
    (check_leader s).1.ticks_elapsed = s.ticks_elapsed ∧
    (check_leader s).1.majority = s.majority ∧
    (check_leader s).1.increment_delay = s.increment_delay ∧
    (check_leader s).1.hb_current_delay = s.hb_current_delay := by
  simp only [check_leader]
  split
  · simp
  · split <;> simp

/-- A successful round close factors through some intermediate state
with an empty bag on which the new round is opened. -/
theorem hb_timeout_some (s s2 : BallotLeaderElection) (e : Option Leader)
    (h : hb_timeout s = some (s2, e)) :
    ∃ s1 : BallotLeaderElection,
      s1.ballots = [] ∧ s1.hb_round = s.hb_round ∧ s1.outgoing = s.outgoing ∧
      s1.peers = s.peers ∧ s1.pid = s.pid ∧ new_hb_round s1 = some s2 := by
  simp only [hb_timeout] at h
  by_cases hg : s.ballots.length + 1 ≥ s.majority
  · rw [if_pos hg] at h
    refine ⟨(check_leader { s with ballots := s.ballots ++ [(s.current_ballot, s.majority_connected)] }).1,
      ?_, ?_, ?_, ?_, ?_, ?_⟩
    · exact (check_leader_frame _).1
    · simpa using (check_leader_frame _).2.1
    · simpa using (check_leader_frame _).2.2.1
    · simpa using (check_leader_frame _).2.2.2.1
    · simpa using (check_leader_frame _).2.2.2.2.1
    · split at h
      · simp at h
      · rename_i s3 heq
        injection h with h2
        injection h2 with h3 h4
        subst h3
        exact heq
  · rw [if_neg hg] at h
    refine ⟨{ s with ballots := [], majority_connected := false }, rfl, rfl, rfl, rfl, rfl, ?_⟩
    split at h
    · simp at h
    · rename_i s3 heq
      injection h with h2
      injection h2 with h3 h4
      subst h3
      exact heq

/-- check_leader never raises the quick timeout flag. -/
theorem check_leader_quick (s : BallotLeaderElection) (hq : s.quick_timeout = false) :
    (check_leader s).1.quick_timeout = false := by
  simp only [check_leader]
  split
  · simpa using hq
  · split <;> simp [hq]

/-- With the quick timeout flag down the round open cannot divide by the
factor, so it always succeeds and keeps the flag down. -/
theorem new_hb_round_of_quick_false (s : BallotLeaderElection)
    (hq : s.quick_timeout = false) :
    ∃ s2, new_hb_round s = some s2 ∧ s2.quick_timeout = false := by
  simp only [new_hb_round]
  rw [if_neg (by simp [hq])]
  exact ⟨_, rfl, by simpa using hq⟩

/-- With the quick timeout flag down a round close always succeeds and
keeps the flag down. -/
theorem hb_timeout_quick_false (s : BallotLeaderElection) (hq : s.quick_timeout = false) :
    ∃ s2 e, hb_timeout s = some (s2, e) ∧ s2.quick_timeout = false := by
  simp only [hb_timeout]
  by_cases hg : s.ballots.length + 1 ≥ s.majority
  · rw [if_pos hg]
    have hcl : (check_leader { s with ballots := s.ballots ++ [(s.current_ballot, s.majority_connected)] }).1.quick_timeout = false :=
      check_leader_quick _ (by simpa using hq)
    obtain ⟨s2, hn, hq2⟩ := new_hb_round_of_quick_false _ hcl
    refine ⟨s2, (check_leader { s with ballots := s.ballots ++ [(s.current_ballot, s.majority_connected)] }).2,
      ?_, hq2⟩
    rw [hn]
  · rw [if_neg hg]
    obtain ⟨s2, hn, hq2⟩ := new_hb_round_of_quick_false
      { s with ballots := [], majority_connected := false } (by simpa using hq)
    refine ⟨s2, none, ?_, hq2⟩
    rw [hn]

/-- handle never moves the quick timeout flag. -/
theorem handle_quick (s : BallotLeaderElection) (m : BLEMessage) :
    (handle m s).quick_timeout = s.quick_timeout := by
  cases hm : m.msg with
  | request req => simp [handle, hm, handle_request]
  | reply rep =>
      simp only [handle, hm, handle_reply]
      split <;> simp

/-- With the quick timeout flag down, tick and handle always succeed and
keep the flag down. -/
theorem applyOp_quick_false (s : BallotLeaderElection) (op : BLEOp)
    (hq : s.quick_timeout = false) (hop : isSetInit op = false) :
    ∃ s2, applyOp s op = some s2 ∧ s2.quick_timeout = false := by
  cases op with
  | tickOp =>
      by_cases hd : s.ticks_elapsed + 1 ≥ s.hb_current_delay
      · obtain ⟨s2, e, hh, hq2⟩ :=
          hb_timeout_quick_false { s with ticks_elapsed := 0 } (by simpa using hq)
        refine ⟨s2, ?_, hq2⟩
        simp only [applyOp, tick]
        rw [if_pos hd, hh]
        rfl
      · refine ⟨{ s with ticks_elapsed := s.ticks_elapsed + 1 }, ?_, by simpa using hq⟩
        simp only [applyOp, tick]
        rw [if_neg hd]
        rfl
  | handleOp m =>
      exact ⟨handle m s, rfl, (handle_quick s m).trans hq⟩
  | setInitialLeaderOp l =>
      simp [isSetInit] at hop

/-- With the quick timeout flag down, any sequence of tick and handle
calls runs to completion. -/
theorem runOps_quick_false (s : BallotLeaderElection) (ops : List BLEOp)
    (hq : s.quick_timeout = false) (hno : noInitOps ops = true) :
    (runOps s ops).isSome = true := by
  induction ops generalizing s with
  | nil => simp [runOps]
  | cons op ops ih =>
      have hno2 : isSetInit op = false ∧ noInitOps ops = true := by
        simpa [noInitOps] using hno
      obtain ⟨s2, h1, h2⟩ := applyOp_quick_false s op hq hno2.1
      simp only [runOps, h1]
      exact ih s2 h2 hno2.2

/-! ## Claims -/

/-- Claim C1: the spec says a round open enqueues, for every peer p, a
HeartbeatRequest with the new round in an envelope from = own pid and
to = p.  The source passes the peer as the first argument of
BLEMessage::with, whose first parameter is the from field, so the
enqueued envelope has from = peer and to = own pid: evaluating the first
round close of a pid 1 instance with peer list [2] yields exactly one
request, labelled with the new round 1, but addressed from 2 to 1. -/
theorem C1_code_eval :
    (BallotLeaderElection.tick c1init).map (fun p => p.1.outgoing) =
      some [⟨2, 1, HeartbeatMsg.request ⟨1⟩⟩] := by
  decide

/-- Claim C7: handling a reply whose round differs from the current
hb_round changes hb_delay by exactly increment_delay and nothing else,
and k such replies in a row add k times increment_delay. -/
theorem C7_stale_reply (s : BallotLeaderElection) (m : BLEMessage) (rep : HeartbeatReply)
    (k : Nat) (h1 : m.msg = HeartbeatMsg.reply rep) (h2 : rep.round ≠ s.hb_round) :
    handle m s = { s with hb_delay := s.hb_delay + s.increment_delay } ∧
    (handle m)^[k] s = { s with hb_delay := s.hb_delay + k * s.increment_delay } := by
  constructor
  · simp [handle, h1, handle_reply, h2]
  · induction k with
    | zero => simp
    | succ n ih =>
        rw [Function.iterate_succ_apply', ih]
        have harith : s.hb_delay + n * s.increment_delay + s.increment_delay =
            s.hb_delay + (n + 1) * s.increment_delay := by ring
        simp [handle, h1, handle_reply, h2, harith]

/-- Claim C7 witness: three stale replies of round 4 against round 5
with hb_delay 5 and increment_delay 2. -/
theorem C7_witness :
    handle w7m w7s = { w7s with hb_delay := w7s.hb_delay + w7s.increment_delay } ∧
    (handle w7m)^[3] w7s = { w7s with hb_delay := w7s.hb_delay + 3 * w7s.increment_delay } :=
  C7_stale_reply w7s w7m w7rep 3 rfl (by decide)

/-- Claim C9: handling a HeartbeatRequest appends exactly one
HeartbeatReply echoing the incoming round and carrying the current
ballot and majority_connected flag, addressed from the own pid to the
sender, and changes nothing else. -/
theorem C9_request_reply (s : BallotLeaderElection) (m : BLEMessage) (req : HeartbeatRequest)
    (h : m.msg = HeartbeatMsg.request req) :
    handle m s = { s with outgoing := s.outgoing ++
      [⟨s.pid, m.from_, HeartbeatMsg.reply ⟨req.round, s.current_ballot, s.majority_connected⟩⟩] } := by
  simp [handle, h, handle_request]

/-- Claim C9 witness: a request of round 5 from replica 2 handled by
c1init. -/
theorem C9_witness :
    handle w9m c1init = { c1init with outgoing := c1init.outgoing ++
      [⟨c1init.pid, w9m.from_, HeartbeatMsg.reply ⟨5, c1init.current_ballot, c1init.majority_connected⟩⟩] } :=
  C9_request_reply c1init w9m ⟨5⟩ rfl

/-- Claim C10: handle never changes the leader, the current ballot, the
majority_connected flag, the round counter, the effective delay, or the
tick counter, whatever the message. -/
theorem C10_handle_frame (s : BallotLeaderElection) (m : BLEMessage) :
    (handle m s).leader = s.leader ∧
    (handle m s).current_ballot = s.current_ballot ∧
    (handle m s).majority_connected = s.majority_connected ∧
    (handle m s).hb_round = s.hb_round ∧
    (handle m s).hb_current_delay = s.hb_current_delay ∧
    (handle m s).ticks_elapsed = s.ticks_elapsed := by
  cases hm : m.msg with
  | request req => simp [handle, hm, handle_request]
  | reply rep =>
      simp only [handle, hm, handle_reply]
      split <;> simp

/-- Claim C2 counterexample: starting from c1init, a first round close
fails the gate (dropping majority_connected), a non candidate reply of
round 1 arrives, and the next tick closes a round in which the gate
passes while the filtered candidate bag is empty, so top is the default
ballot (0, 0) and the known leader is none.  The claim says no Leader
event is emitted and the state is unchanged; the code emits
Leader(0, (0, 0)) and sets leader to some (0, 0). -/
theorem C2_counterexample :
    (runOps c1init [BLEOp.tickOp, BLEOp.handleOp c2msg]).map (fun s => s.leader) =
      some none ∧
    (runOps c1init [BLEOp.tickOp, BLEOp.handleOp c2msg]).bind
      (fun s => (BallotLeaderElection.tick s).map (fun p => (p.2, p.1.leader))) =
      some (some ⟨0, ⟨0, 0⟩⟩, some ⟨0, 0⟩) := by
  decide

/-- Claim C3 counterexample: constructing pid 1 with initial leader
Leader(2, Ballot(7, 2)) yields majority_connected = true, not false as
the claim states: the constructor initialises the flag to true
unconditionally. -/
theorem C3_counterexample :
    ¬ ((BallotLeaderElection.new [2] 1 5 1 false (some ⟨2, ⟨7, 2⟩⟩) none).majority_connected
        = false) := by
  decide

/-- Claim C4 counterexample: after the eight operations of c4ops8 the
current ballot number of c1init is 11, and the next tick closes a round
that takes the incumbent loss branch against leader (3, 2) and resets
the number to 4, a strict decrease under tick and handle alone. -/
theorem C4_counterexample :
    (runOps c1init c4ops8).map (fun s => s.current_ballot.n) = some 11 ∧
    (runOps c1init (c4ops8 ++ [BLEOp.tickOp])).map (fun s => s.current_ballot.n) =
      some 4 := by
  decide

/-- Claim C5 counterexample: an instance constructed with quick_timeout
true, hb_delay 10 and initial_delay_factor 5 starts with
hb_current_delay = 10, not 2, and its first two ticks close no round:
after them the round counter is still 0 and nothing was enqueued. -/
theorem C5_counterexample :
    c5init.hb_current_delay = 10 ∧
    (runOps c5init [BLEOp.tickOp, BLEOp.tickOp]).map
      (fun s => (s.hb_round, s.outgoing.length)) = some (0, 0) := by
  decide

/-- Claim C6 counterexample: an instance constructed with
initial_delay_factor = 0 and quick_timeout false is built without abort
and runs three round closing ticks without abort: the division by the
factor is only reached while quick_timeout is set. -/
theorem C6_counterexample :
    (runOps w6s0 [BLEOp.tickOp, BLEOp.tickOp, BLEOp.tickOp]).isSome = true := by
  decide

/-- Claim C8: every round close empties the ballot bag, advances the
round counter by one, keeps the previously queued messages, and appends
exactly one message per peer, each a HeartbeatRequest carrying the new
round number. -/
theorem C8_round_close (s s2 : BallotLeaderElection) (e : Option Leader)
    (hDue : s.ticks_elapsed + 1 ≥ s.hb_current_delay)
    (hTick : tick s = some (s2, e)) :
    s2.ballots = [] ∧ s2.hb_round = s.hb_round + 1 ∧
    s2.outgoing.take s.outgoing.length = s.outgoing ∧
    (s2.outgoing.drop s.outgoing.length).length = s.peers.length ∧
    ∀ msg ∈ s2.outgoing.drop s.outgoing.length,
      msg.msg = HeartbeatMsg.request ⟨s2.hb_round⟩ := by
  have hTick2 : hb_timeout { s with ticks_elapsed := 0 } = some (s2, e) := by
    simp only [tick] at hTick
    rwa [if_pos hDue] at hTick
  obtain ⟨s1, hb, hr, ho, hp, hpid, hn⟩ := hb_timeout_some _ _ _ hTick2
  obtain ⟨hb2, hr2, ho2, _, _, _, _, hp2, _, _⟩ := new_hb_round_some _ _ hn
  simp only [hb_timeout] at hTick2
  refine ⟨by rw [hb2, hb], by simp [hr2, hr], ?_, ?_, ?_⟩
  · rw [ho2, ho, hp, hpid]
    simp
  · rw [ho2, ho, hp, hpid]
    simp
  · intro msg hmsg
    rw [ho2, ho, hp, hpid] at hmsg
    simp only [List.drop_left] at hmsg
    simp only [List.mem_map] at hmsg
    obtain ⟨peer, hpeer, rfl⟩ := hmsg
    simp [hr2, hr]

/-- handle never changes the current ballot. -/
theorem handle_current (s : BallotLeaderElection) (m : BLEMessage) :
    (handle m s).current_ballot = s.current_ballot := by
  cases hm : m.msg with
  | request req => simp [handle, hm, handle_request]
  | reply rep =>
      simp only [handle, hm, handle_reply]
      split <;> simp

/-- When a leader is known and the top candidate ballot equals it,
check_leader takes its silent branch: it only empties the bag. -/
theorem check_leader_case_same (s : BallotLeaderElection) (b : Ballot)
    (hL : s.leader = some b)
    (hTop : listMaxBallot (candidateBallots s.ballots) = b) :
    check_leader s = ({ s with ballots := [] }, none) := by
  simp only [check_leader]
  rw [hTop, hL]
  simp [Ballot.ltb_irrefl]

/-- check_leader either keeps the current ballot, or a leader was known
and the current ballot number becomes that leader ballot number plus
one. -/
theorem check_leader_current (s : BallotLeaderElection) :
    (check_leader s).1.current_ballot = s.current_ballot ∨
    (s.leader ≠ none ∧
      (check_leader s).1.current_ballot =
        ⟨(s.leader.getD Ballot.default).n + 1, s.current_ballot.pid⟩) := by
  simp only [check_leader]
  split
  · rename_i hguard
    right
    refine ⟨?_, by simp⟩
    intro hnone
    rw [hnone] at hguard
    simp [Ballot.ltb_default_right] at hguard
  · split
    · left
      simp
    · left
      simp

/-- Across a successful round close the current ballot is unchanged, or
a leader was known and the current ballot number becomes that leader
ballot number plus one. -/
theorem hb_timeout_current (s s2 : BallotLeaderElection) (e : Option Leader)
    (h : hb_timeout s = some (s2, e)) :
    s2.current_ballot = s.current_ballot ∨
    (s.leader ≠ none ∧
      s2.current_ballot = ⟨(s.leader.getD Ballot.default).n + 1, s.current_ballot.pid⟩) := by
  simp only [hb_timeout] at h
  by_cases hg : s.ballots.length + 1 ≥ s.majority
  · rw [if_pos hg] at h
    split at h
    · simp at h
    · rename_i s3 heq
      injection h with h2
      injection h2 with h3 h4
      subst h3
      have hnh := new_hb_round_some _ _ heq
      rcases check_leader_current
          { s with ballots := s.ballots ++ [(s.current_ballot, s.majority_connected)] } with
        h5 | ⟨h5, h6⟩
      · left
        rw [hnh.2.2.2.1, h5]
      · right
        refine ⟨by simpa using h5, ?_⟩
        rw [hnh.2.2.2.1, h6]
  · rw [if_neg hg] at h
    split at h
    · simp at h
    · rename_i s3 heq
      injection h with h2
      injection h2 with h3 h4
      subst h3
      left
      rw [(new_hb_round_some _ _ heq).2.2.2.1]

/-- Claim C2 amended: at a round close where the majority gate passes,
if a leader is known (leader = some b) and the top candidate ballot
after the self push equals b, then leader, current ballot,
majority_connected and quick_timeout are unchanged and tick returns no
Leader event.  (When no leader is known and the candidate bag is empty
the source instead adopts the default ballot and emits Leader(0, (0, 0)):
see the counterexample.) -/
theorem C2_amended (s s2 : BallotLeaderElection) (e : Option Leader) (b : Ballot)
    (hL : s.leader = some b)
    (hGate : s.ballots.length + 1 ≥ s.majority)
    (hTop : round_top s = b)
    (hDue : s.ticks_elapsed + 1 ≥ s.hb_current_delay)
    (hTick : tick s = some (s2, e)) :
    s2.leader = some b ∧ s2.current_ballot = s.current_ballot ∧
    s2.majority_connected = s.majority_connected ∧
    s2.quick_timeout = s.quick_timeout ∧ e = none := by
  have hTick2 : hb_timeout { s with ticks_elapsed := 0 } = some (s2, e) := by
    simp only [tick] at hTick
    rwa [if_pos hDue] at hTick
  simp only [hb_timeout] at hTick2
  rw [if_pos (by simpa using hGate)] at hTick2
  rw [check_leader_case_same _ b (by simpa using hL) (by simpa [round_top] using hTop)]
    at hTick2
  split at hTick2
  · simp at hTick2
  · rename_i s3 heq
    injection hTick2 with h2
    injection h2 with h3 h4
    subst h3
    have hnh := new_hb_round_some _ _ heq
    refine ⟨?_, ?_, ?_, ?_, h4.symm⟩
    · rw [hnh.2.2.2.2.1]
      simpa using hL
    · rw [hnh.2.2.2.1]
    · rw [hnh.2.2.2.2.2.1]
    · rw [hnh.2.2.2.2.2.2.1]

/-- Claim C2 witness: w2s knows leader (5, 2), holds a candidate reply
(5, 2) of the current round, and its next tick closes the round with a
passing gate; the state keeps leader, ballot, flags and no event is
returned. -/
theorem C2_witness :
    w2res.1.leader = some ⟨5, 2⟩ ∧ w2res.1.current_ballot = w2s.current_ballot ∧
    w2res.1.majority_connected = w2s.majority_connected ∧
    w2res.1.quick_timeout = w2s.quick_timeout ∧ w2res.2 = none :=
  C2_amended w2s w2res.1 w2res.2 ⟨5, 2⟩ rfl (by decide) (by decide) (by decide) rfl

/-- Claim C3 amended: constructing with an initial leader that names
another replica yields current_ballot = (0, pid) as claimed, but
majority_connected = true: the constructor initialises the flag to true
unconditionally (only set_initial_leader drops it for a non self
leader). -/
theorem C3_amended (peers : List Nat) (pid hb incr : Nat) (qt : Bool) (l : Leader)
    (f : Option Nat) (h : l.pid ≠ pid) :
    (new peers pid hb incr qt (some l) f).current_ballot = ⟨0, pid⟩ ∧
    (new peers pid hb incr qt (some l) f).majority_connected = true := by
  constructor
  · simp [new, h]
  · rfl

/-- Claim C3 witness: pid 1 with initial leader Leader(2, Ballot(7, 2)). -/
theorem C3_witness :
    (new [2] 1 5 1 false (some ⟨2, ⟨7, 2⟩⟩) none).current_ballot = ⟨0, 1⟩ ∧
    (new [2] 1 5 1 false (some ⟨2, ⟨7, 2⟩⟩) none).majority_connected = true :=
  C3_amended [2] 1 5 1 false ⟨2, ⟨7, 2⟩⟩ none (by decide)

/-- Claim C4 amended: across a tick or handle step the current ballot
number never decreases, except when a round close takes the incumbent
loss branch: then a leader was known and the current ballot becomes that
leader ballot number plus one (with the old pid), which can be smaller.
A set_initial_leader step (possible whenever leader is none) can also
rewrite the current ballot. -/
theorem C4_amended (s : BallotLeaderElection) (op : BLEOp) (s2 : BallotLeaderElection)
    (h : applyOp s op = some s2) :
    s.current_ballot.n ≤ s2.current_ballot.n ∨
    (s.leader ≠ none ∧
      s2.current_ballot = ⟨(s.leader.getD Ballot.default).n + 1, s.current_ballot.pid⟩) ∨
    isSetInit op = true := by
  cases op with
  | setInitialLeaderOp l =>
      right; right; rfl
  | handleOp m =>
      left
      have h2 : handle m s = s2 := by simpa [applyOp] using h
      rw [← h2, handle_current]
  | tickOp =>
      simp only [applyOp, tick] at h
      by_cases hd : s.ticks_elapsed + 1 ≥ s.hb_current_delay
      · rw [if_pos hd] at h
        cases hh : hb_timeout { s with ticks_elapsed := 0 } with
        | none => rw [hh] at h; simp at h
        | some p =>
            rw [hh] at h
            simp only [Option.map_some'] at h
            injection h with h2
            have hcur := hb_timeout_current { s with ticks_elapsed := 0 } p.1 p.2
              (by rw [hh])
            rcases hcur with h5 | ⟨h5, h6⟩
            · left
              rw [← h2, h5]
            · right; left
              exact ⟨by simpa using h5, by rw [← h2, h6]⟩
      · rw [if_neg hd] at h
        simp only [Option.map_some'] at h
        injection h with h2
        left
        rw [← h2]

/-- Claim C4 witness: a handle step on c1init keeps the current ballot
number. -/
theorem C4_witness :
    c1init.current_ballot.n ≤ (handle w4m c1init).current_ballot.n ∨
    (c1init.leader ≠ none ∧
      (handle w4m c1init).current_ballot =
        ⟨(c1init.leader.getD Ballot.default).n + 1, c1init.current_ballot.pid⟩) ∨
    isSetInit (BLEOp.handleOp w4m) = true :=
  C4_amended c1init (BLEOp.handleOp w4m) (handle w4m c1init) rfl

/-- Claim C5 amended: the constructor initialises hb_current_delay to
hb_delay regardless of quick_timeout, so the first round runs for
hb_delay ticks; it is only a round open (new_hb_round, at the end of
every round close) that, while quick_timeout holds, sets
hb_current_delay to hb_delay divided by initial_delay_factor.  With
hb_delay 10 and factor 5 the first round closes on the tenth tick and
the second round uses delay 2. -/
theorem C5_amended :
    (∀ (peers : List Nat) (pid hb incr : Nat) (qt : Bool) (il : Option Leader)
        (f : Option Nat), (new peers pid hb incr qt il f).hb_current_delay = hb) ∧
    (∀ s s2 : BallotLeaderElection, s.quick_timeout = true → new_hb_round s = some s2 →
        s2.hb_current_delay = s.hb_delay / s.initial_delay_factor) := by
  constructor
  · intro peers pid hb incr qt il f
    rfl
  · intro s s2 hq h
    simp only [new_hb_round] at h
    split at h
    · simp at h
    · injection h with h
      subst h
      simp [hq]

/-- Claim C5 witness: the first round open of c5init (hb_delay 10,
factor 5, quick timeout) sets the effective delay to 10 / 5 = 2, and
the constructed delay itself is 10. -/
theorem C5_witness :
    (new [2] 1 10 0 true none (some 5)).hb_current_delay = 10 ∧
    w5res.hb_current_delay = c5init.hb_delay / c5init.initial_delay_factor :=
  ⟨C5_amended.1 [2] 1 10 0 true none (some 5),
   C5_amended.2 c5init w5res rfl rfl⟩

/-- Claim C6 amended: calling set_initial_leader while a leader is set
panics, as claimed.  With initial_delay_factor = 0, however,
construction succeeds; the division by the factor panics exactly when a
round opens while quick_timeout is still set, and with quick_timeout
false no sequence of tick and handle calls can abort.  handle alone
never aborts on any message. -/
theorem C6_amended :
    (∀ (s : BallotLeaderElection) (l : Leader), s.leader.isSome = true →
        set_initial_leader l s = none) ∧
    (∀ s : BallotLeaderElection,
        new_hb_round s = none ↔ s.quick_timeout = true ∧ s.initial_delay_factor = 0) ∧
    (∀ (s : BallotLeaderElection) (ops : List BLEOp), s.quick_timeout = false →
        noInitOps ops = true → (runOps s ops).isSome = true) ∧
    (∀ (s : BallotLeaderElection) (m : BLEMessage),
        (applyOp s (BLEOp.handleOp m)).isSome = true) := by
  refine ⟨?_, ?_, ?_, ?_⟩
  · intro s l h
    simp [set_initial_leader, h]
  · intro s
    simp only [new_hb_round]
    split
    · rename_i hc
      simpa using hc
    · rename_i hc
      simpa using hc
  · intro s ops hq hno
    exact runOps_quick_false s ops hq hno
  · intro s m
    simp [applyOp]

/-- Claim C6 witness: a second set_initial_leader on w6s (leader set at
construction) panics, and the factor 0 instance w6s0 with quick_timeout
false survives two round closing ticks. -/
theorem C6_witness :
    set_initial_leader w6l w6s = none ∧
    (runOps w6s0 [BLEOp.tickOp, BLEOp.tickOp]).isSome = true :=
  ⟨C6_amended.1 w6s w6l rfl,
   C6_amended.2.2.1 w6s0 [BLEOp.tickOp, BLEOp.tickOp] rfl rfl⟩

/-- Claim C8 witness: the first round close of c1init empties the bag,
moves to round 1 and enqueues one request per peer labelled round 1. -/
theorem C8_witness :
    w8res.1.ballots = [] ∧ w8res.1.hb_round = c1init.hb_round + 1 ∧
    w8res.1.outgoing.take c1init.outgoing.length = c1init.outgoing ∧
    (w8res.1.outgoing.drop c1init.outgoing.length).length = c1init.peers.length ∧
    ∀ msg ∈ w8res.1.outgoing.drop c1init.outgoing.length,
      msg.msg = HeartbeatMsg.request ⟨w8res.1.hb_round⟩ :=
  C8_round_close c1init w8res.1 w8res.2 (by decide) rfl
